import Mathlib

/-!
Shallow embedding of the Warframe companion app core (TTL response cache,
countdown timer registry, world-state refresh policy, order ranking) and
proofs about it.  Definitions mirror the JavaScript source: the renderer
classes WarframeMarketAPI, WarframeAlertsAPI and WarframeMarketApp.
JavaScript Map objects are modelled as association lists, Date.now()
timestamps as natural numbers (milliseconds), and network fetches as an
explicit argument of type Except String describing what the network would
return at the moment of the call.
-/

/-- Association-list update mirroring JavaScript Map.prototype.set:
replaces the binding of the first matching key or appends a new one. -/
def mapSet {α : Type} (m : List (String × α)) (k : String) (v : α) :
    List (String × α) :=
  match m with
  | [] => [(k, v)]
  | (k₀, v₀) :: rest =>
      if k₀ = k then (k, v) :: rest else (k₀, v₀) :: mapSet rest k v

theorem lookup_mapSet_self {α : Type} (m : List (String × α)) (k : String) (v : α) :
    (mapSet m k v).lookup k = some v := by
  induction m with
  | nil => simp [mapSet, List.lookup]
  | cons hd tl ih =>
      obtain ⟨k₀, v₀⟩ := hd
      by_cases h : k₀ = k
      · simp [mapSet, h, List.lookup]
      · have hne : (k == k₀) = false := by
          simp only [beq_eq_false_iff_ne, ne_eq]
          exact fun h2 => h h2.symm
        simp [mapSet, h, List.lookup, hne, ih]

theorem lookup_mapSet_ne {α : Type} (m : List (String × α)) (k k₁ : String) (v : α)
    (h : k₁ ≠ k) : (mapSet m k v).lookup k₁ = m.lookup k₁ := by
  have hne : (k₁ == k) = false := by
    simp only [beq_eq_false_iff_ne, ne_eq]
    exact h
  induction m with
  | nil => simp [mapSet, List.lookup, hne]
  | cons hd tl ih =>
      obtain ⟨k₀, v₀⟩ := hd
      by_cases h0 : k₀ = k
      · subst h0
        simp [mapSet, List.lookup, hne]
      · simp only [mapSet, h0, if_false, List.lookup]
        cases hk : k₁ == k₀ <;> simp [ih]

theorem lookup_map_value {α β : Type} (m : List (String × α)) (f : α → β) (k : String) :
    (m.map (fun p => (p.1, f p.2))).lookup k = (m.lookup k).map f := by
  induction m with
  | nil => simp [List.lookup]
  | cons hd tl ih =>
      obtain ⟨k₀, v₀⟩ := hd
      simp only [List.map, List.lookup]
      cases hk : k == k₀ <;> simp [ih]

/-! ## TTL response cache

Mirrors WarframeMarketAPI.fetchWithCache and WarframeAlertsAPI.fetchWithCache.
Each class holds a Map from URL to a cached entry and a cacheTimeout in
milliseconds (300000 for the market API, 60000 for the alerts API).
A fetch result records the returned payload, the updated API state and
whether a network request was attempted. -/

/-- Entry stored in an API cache: the parsed JSON payload and the
Date.now() value at which it was stored. -/
structure CacheEntry (α : Type) where
  data : α
  timestamp : Nat
  deriving Repr, DecidableEq

/-- State of one API client object: its url-keyed cache Map and its
cacheTimeout (TTL) in milliseconds. -/
structure ApiState (α : Type) where
  cache : List (String × CacheEntry α)
  cacheTimeout : Nat
  deriving Repr, DecidableEq

/-- Value of the cacheTimeout field set in the WarframeMarketAPI
constructor: 5 minutes. -/
def marketCacheTimeout : Nat := 300000

/-- Value of the cacheTimeout field set in the WarframeAlertsAPI
constructor: 1 minute. -/
def alertsCacheTimeout : Nat := 60000

/-- Embedding of WarframeMarketAPI.fetchWithCache.  Arguments: the object
state, the url, the current Date.now() value, and what the network would
return (Except.ok payload for a 2xx response, Except.error for a non-2xx
status or transport error).  Returns the payload, the new object state and
a flag recording whether fetch was called. -/
def WarframeMarketAPI.fetchWithCache {α : Type} (api : ApiState α) (url : String)
    (now : Nat) (net : Except String α) :
    Except String (α × ApiState α × Bool) :=
  match api.cache.lookup url with
  | some cached =>
      if now - cached.timestamp < api.cacheTimeout then
        Except.ok (cached.data, api, false)
      else
        match net with
        | Except.ok data =>
            Except.ok (data, { api with cache := mapSet api.cache url ⟨data, now⟩ }, true)
        | Except.error _ =>
            Except.ok (cached.data, api, true)
  | none =>
      match net with
      | Except.ok data =>
          Except.ok (data, { api with cache := mapSet api.cache url ⟨data, now⟩ }, true)
      | Except.error e => Except.error e

/-- Embedding of WarframeAlertsAPI.fetchWithCache.  Identical fresh-cache
and success paths, but its catch block always rethrows a wrapped error and
never falls back to a stale cache entry. -/
def WarframeAlertsAPI.fetchWithCache {α : Type} (api : ApiState α) (url : String)
    (now : Nat) (net : Except String α) :
    Except String (α × ApiState α × Bool) :=
  match api.cache.lookup url with
  | some cached =>
      if now - cached.timestamp < api.cacheTimeout then
        Except.ok (cached.data, api, false)
      else
        match net with
        | Except.ok data =>
            Except.ok (data, { api with cache := mapSet api.cache url ⟨data, now⟩ }, true)
        | Except.error e =>
            Except.error ("Failed to fetch alerts data: " ++ e)
  | none =>
      match net with
      | Except.ok data =>
          Except.ok (data, { api with cache := mapSet api.cache url ⟨data, now⟩ }, true)
      | Except.error e =>
          Except.error ("Failed to fetch alerts data: " ++ e)

/-- C1 counterexample: the claim asserts the stale-cache fallback for both
cache instances, but WarframeAlertsAPI.fetchWithCache raises a wrapped
error even though a (stale) cache entry for the URL exists. -/
theorem alertsFetch_stale_entry_still_raises :
    WarframeAlertsAPI.fetchWithCache
        (ApiState.mk [("u", CacheEntry.mk (42 : Nat) 0)] 60000) "u" 100000
        (Except.error "boom")
      = Except.error "Failed to fetch alerts data: boom" ∧
    (Except.error "Failed to fetch alerts data: boom" :
        Except String (Nat × ApiState Nat × Bool)) ≠
      Except.ok (42, ApiState.mk [("u", CacheEntry.mk 42 0)] 60000, true) := by
  constructor
  · rfl
  · simp

/-- C1 (amended): when the network request fails, the market API returns
the cached payload if any entry exists (even a stale one) and propagates
the error only when no entry exists; the alerts API instead propagates a
wrapped error in both cases, never falling back to its cache. -/
theorem fetchWithCache_failure_fallback {α : Type} (api : ApiState α)
    (url : String) (now : Nat) (e : String) :
    (∀ c, api.cache.lookup url = some c → ¬ now - c.timestamp < api.cacheTimeout →
      WarframeMarketAPI.fetchWithCache api url now (Except.error e) =
        Except.ok (c.data, api, true)) ∧
    (api.cache.lookup url = none →
      WarframeMarketAPI.fetchWithCache api url now (Except.error e) =
        Except.error e) ∧
    (∀ c, api.cache.lookup url = some c → ¬ now - c.timestamp < api.cacheTimeout →
      WarframeAlertsAPI.fetchWithCache api url now (Except.error e) =
        Except.error ("Failed to fetch alerts data: " ++ e)) ∧
    (api.cache.lookup url = none →
      WarframeAlertsAPI.fetchWithCache api url now (Except.error e) =
        Except.error ("Failed to fetch alerts data: " ++ e)) := by
  refine ⟨?_, ?_, ?_, ?_⟩
  · intro c hc hstale
    unfold WarframeMarketAPI.fetchWithCache
    rw [hc]
    simp [hstale]
  · intro hc
    unfold WarframeMarketAPI.fetchWithCache
    rw [hc]
  · intro c hc hstale
    unfold WarframeAlertsAPI.fetchWithCache
    rw [hc]
    simp [hstale]
  · intro hc
    unfold WarframeAlertsAPI.fetchWithCache
    rw [hc]

/-- Closed instance of the amended C1 theorem: a market API holding a stale
entry whose fetch fails returns the stale payload. -/
theorem fetchWithCache_failure_fallback_witness :
    WarframeMarketAPI.fetchWithCache
        (ApiState.mk [("u", CacheEntry.mk (42 : Nat) 0)] 300000) "u" 400000
        (Except.error "boom")
      = Except.ok (42, ApiState.mk [("u", CacheEntry.mk 42 0)] 300000, true) :=
  (fetchWithCache_failure_fallback
      (ApiState.mk [("u", CacheEntry.mk (42 : Nat) 0)] 300000) "u" 400000 "boom").1
    (CacheEntry.mk 42 0) (by decide) (by decide)

/-- C9: a fresh cache entry is served without any network access by both
fetchWithCache implementations, and in the two-then-one-more call scenario
over one URL the first call fetches, the second call within the TTL serves
the cache without fetching, and a third call after TTL expiry fetches
again. -/
theorem fetchWithCache_fresh_hit_and_ttl (α : Type) :
    (∀ (api : ApiState α) (url : String) (now : Nat) (net : Except String α) c,
        api.cache.lookup url = some c → now - c.timestamp < api.cacheTimeout →
        WarframeMarketAPI.fetchWithCache api url now net =
          Except.ok (c.data, api, false) ∧
        WarframeAlertsAPI.fetchWithCache api url now net =
          Except.ok (c.data, api, false)) ∧
    (∀ (ttl : Nat) (url : String) (d d₂ : α) (t₀ t₁ t₂ : Nat)
        (net₁ : Except String α),
        t₁ - t₀ < ttl → ¬ t₂ - t₀ < ttl →
        WarframeMarketAPI.fetchWithCache (ApiState.mk [] ttl) url t₀
            (Except.ok d) =
          Except.ok (d, ApiState.mk [(url, CacheEntry.mk d t₀)] ttl, true) ∧
        WarframeMarketAPI.fetchWithCache
            (ApiState.mk [(url, CacheEntry.mk d t₀)] ttl) url t₁ net₁ =
          Except.ok (d, ApiState.mk [(url, CacheEntry.mk d t₀)] ttl, false) ∧
        WarframeMarketAPI.fetchWithCache
            (ApiState.mk [(url, CacheEntry.mk d t₀)] ttl) url t₂
            (Except.ok d₂) =
          Except.ok (d₂, ApiState.mk [(url, CacheEntry.mk d₂ t₂)] ttl, true)) := by
  constructor
  · intro api url now net c hc hfresh
    constructor
    · unfold WarframeMarketAPI.fetchWithCache
      rw [hc]
      simp [hfresh]
    · unfold WarframeAlertsAPI.fetchWithCache
      rw [hc]
      simp [hfresh]
  · intro ttl url d d₂ t₀ t₁ t₂ net₁ h₁ h₂
    refine ⟨?_, ?_, ?_⟩
    · unfold WarframeMarketAPI.fetchWithCache
      simp [List.lookup, mapSet]
    · unfold WarframeMarketAPI.fetchWithCache
      simp [List.lookup, h₁]
    · unfold WarframeMarketAPI.fetchWithCache
      simp [List.lookup, h₂, mapSet]

/-- Closed instance of the C9 theorem: with a 300000 ms TTL, calls at
t = 0, t = 100 and t = 300000 over the same URL fetch, serve the cache,
and fetch again, respectively. -/
theorem fetchWithCache_fresh_hit_and_ttl_witness :
    WarframeMarketAPI.fetchWithCache (ApiState.mk [] 300000) "u" 0
        (Except.ok (1 : Nat)) =
      Except.ok (1, ApiState.mk [("u", CacheEntry.mk 1 0)] 300000, true) ∧
    WarframeMarketAPI.fetchWithCache
        (ApiState.mk [("u", CacheEntry.mk (1 : Nat) 0)] 300000) "u" 100
        (Except.error "down") =
      Except.ok (1, ApiState.mk [("u", CacheEntry.mk 1 0)] 300000, false) ∧
    WarframeMarketAPI.fetchWithCache
        (ApiState.mk [("u", CacheEntry.mk (1 : Nat) 0)] 300000) "u" 300000
        (Except.ok 2) =
      Except.ok (2, ApiState.mk [("u", CacheEntry.mk 2 300000)] 300000, true) :=
  (fetchWithCache_fresh_hit_and_ttl Nat).2 300000 "u" 1 2 0 100 300000
    (Except.error "down") (by decide) (by decide)

/-! ## Countdown timer registry

Mirrors the timer bookkeeping of WarframeMarketApp: the cycleTimers,
alertTimers and fissureTimers Maps, the per-cycle update rule inside
displayCycles, the clear-and-rebuild of alertTimers inside displayAlerts,
the once-per-second updateTimers loop, and the refresh decision inside
startAlertsRefresh.  Scheduling a corrective refresh with
setTimeout(..., 15000) is recorded by appending the delay to a log. -/

/-- Value stored in this.cycleTimers: remaining seconds plus the cycle
state metadata (state string and isDay flag). -/
structure TimerData where
  seconds : Nat
  state : String
  isDay : Bool
  deriving Repr, DecidableEq

/-- Value stored in this.alertTimers and this.fissureTimers: remaining
seconds plus the expiry timestamp in milliseconds. -/
structure SimpleTimerData where
  seconds : Nat
  expiry : Nat
  deriving Repr, DecidableEq

/-- Embedding of the shouldUpdateTimer condition in displayCycles: update
when no entry exists, the state string changed, the isDay flag changed, or
the authoritative seconds differ from the tracked seconds by more than
120. -/
def shouldUpdateTimer (existingTimer : Option TimerData) (timeInSeconds : Nat)
    (state : String) (isDay : Bool) : Bool :=
  match existingTimer with
  | none => true
  | some t =>
      decide (t.state ≠ state) || decide (t.isDay ≠ isDay) ||
        decide (((t.seconds : Int) - (timeInSeconds : Int)).natAbs > 120)

/-- Embedding of the per-cycle timer update in displayCycles: overwrite the
tracked entry only when shouldUpdateTimer holds, otherwise keep the
locally ticked value. -/
def cycleTimerUpsert (cycleTimers : List (String × TimerData)) (name : String)
    (timeInSeconds : Nat) (state : String) (isDay : Bool) :
    List (String × TimerData) :=
  if shouldUpdateTimer (cycleTimers.lookup name) timeInSeconds state isDay then
    mapSet cycleTimers name (TimerData.mk timeInSeconds state isDay)
  else cycleTimers

/-- Embedding of Map.prototype.clear as called on this.alertTimers at the
top of displayAlerts. -/
def clearTimers {α : Type} (_ : List (String × α)) : List (String × α) := []

/-- Embedding of the alert timer bookkeeping in displayAlerts: the tracked
map is cleared, then for each of the first 8 alerts (represented by its
optional expiry timestamp) with a positive remaining time the entry
alert-index is stored with seconds = floor((expiry - now) / 1000). -/
def displayAlertsTimers (alertTimers : List (String × SimpleTimerData))
    (alerts : List (Option Nat)) (now : Nat) : List (String × SimpleTimerData) :=
  ((alerts.take 8).enum).foldl
    (fun m p =>
      match p.2 with
      | some expiryTime =>
          let timeLeft := (expiryTime - now) / 1000
          if timeLeft > 0 then
            mapSet m ("alert-" ++ toString p.1) (SimpleTimerData.mk timeLeft expiryTime)
          else m
      | none => m)
    (clearTimers alertTimers)

/-- Timer-related state of a WarframeMarketApp object: the three tracked
timer Maps, the pendingRefresh debounce flag, and a log of the delays (in
milliseconds) of every corrective refresh scheduled so far. -/
structure AppTimerState where
  cycleTimers : List (String × TimerData)
  alertTimers : List (String × SimpleTimerData)
  fissureTimers : List (String × SimpleTimerData)
  pendingRefresh : Bool
  scheduled : List Nat
  deriving Repr, DecidableEq

/-- Per-entry decrement in updateTimers: entries with seconds > 0 are
decremented by one, entries at 0 are left at 0. -/
def tickTimerData (t : TimerData) : TimerData :=
  if t.seconds > 0 then { t with seconds := t.seconds - 1 } else t

/-- Per-entry decrement for alert and fissure timers in updateTimers. -/
def tickSimpleTimerData (t : SimpleTimerData) : SimpleTimerData :=
  if t.seconds > 0 then { t with seconds := t.seconds - 1 } else t

/-- Decrement pass of updateTimers over all three timer Maps. -/
def tickAllTimers (st : AppTimerState) : AppTimerState :=
  { st with
    cycleTimers := st.cycleTimers.map (fun p => (p.1, tickTimerData p.2)),
    alertTimers := st.alertTimers.map (fun p => (p.1, tickSimpleTimerData p.2)),
    fissureTimers := st.fissureTimers.map (fun p => (p.1, tickSimpleTimerData p.2)) }

/-- Embedding of the expiry check at the end of updateTimers: some entry of
some of the three Maps has seconds equal to 0. -/
def expiredTimersNonempty (st : AppTimerState) : Bool :=
  decide (0 < (st.cycleTimers.filter (fun p => p.2.seconds == 0)).length) ||
  decide (0 < (st.alertTimers.filter (fun p => p.2.seconds == 0)).length) ||
  decide (0 < (st.fissureTimers.filter (fun p => p.2.seconds == 0)).length)

/-- Embedding of WarframeMarketApp.updateTimers: decrement every timer,
then, if some timer sits at 0 and no corrective refresh is pending, set
pendingRefresh and schedule one refresh delayed by 15000 ms. -/
def updateTimers (st : AppTimerState) : AppTimerState :=
  let st₁ := tickAllTimers st
  if expiredTimersNonempty st₁ && !st₁.pendingRefresh then
    { st₁ with pendingRefresh := true, scheduled := st₁.scheduled ++ [15000] }
  else st₁

/-! ## World-state refresh policy -/

/-- Embedding of the hasActiveTimers computation in startAlertsRefresh: it
inspects only this.cycleTimers, looking for an entry with
0 < seconds < 7200. -/
def hasActiveTimers (cycleTimers : List (String × TimerData)) : Bool :=
  cycleTimers.any (fun p => decide (p.2.seconds > 0) && decide (p.2.seconds < 7200))

/-- Embedding of the shouldRefresh computation in startAlertsRefresh,
with this.lastRefresh as an Option (none when no refresh was ever
recorded by loadAlertsData). -/
def shouldRefresh (cycleTimers : List (String × TimerData))
    (lastRefresh : Option Nat) (now : Nat) : Bool :=
  !hasActiveTimers cycleTimers || lastRefresh.isNone ||
    decide ((now : Int) - (lastRefresh.getD 0 : Int) > 120000)

/-- Modelled from the spec sentence behind C4, for comparison with the
code: refresh is due when no refresh has ever occurred, or more than 2
minutes have elapsed, or none of the currently tracked timers (cycle,
alert and fissure alike) has 0 < remainingSeconds < 7200. -/
def c4ClaimDue (st : AppTimerState) (lastRefresh : Option Nat) (now : Nat) : Bool :=
  lastRefresh.isNone ||
  decide ((now : Int) - (lastRefresh.getD 0 : Int) > 120000) ||
  !(st.cycleTimers.any (fun p => decide (0 < p.2.seconds) && decide (p.2.seconds < 7200)) ||
    st.alertTimers.any (fun p => decide (0 < p.2.seconds) && decide (p.2.seconds < 7200)) ||
    st.fissureTimers.any (fun p => decide (0 < p.2.seconds) && decide (p.2.seconds < 7200)))

theorem tickTimerData_eq (t : TimerData) :
    tickTimerData t = { t with seconds := t.seconds - 1 } := by
  obtain ⟨s, st, d⟩ := t
  unfold tickTimerData
  by_cases h : s > 0
  · simp [h]
  · simp [h]
    omega

theorem tickSimpleTimerData_eq (t : SimpleTimerData) :
    tickSimpleTimerData t = { t with seconds := t.seconds - 1 } := by
  obtain ⟨s, e⟩ := t
  unfold tickSimpleTimerData
  by_cases h : s > 0
  · simp [h]
  · simp [h]
    omega

theorem updateTimers_maps (st : AppTimerState) :
    (updateTimers st).cycleTimers =
        st.cycleTimers.map (fun p => (p.1, tickTimerData p.2)) ∧
    (updateTimers st).alertTimers =
        st.alertTimers.map (fun p => (p.1, tickSimpleTimerData p.2)) ∧
    (updateTimers st).fissureTimers =
        st.fissureTimers.map (fun p => (p.1, tickSimpleTimerData p.2)) := by
  simp only [updateTimers, tickAllTimers]
  split <;> exact ⟨rfl, rfl, rfl⟩

/-- C2 counterexample: the claim extends the 120-second jitter tolerance to
alert timers, but displayAlerts clears and rebuilds this.alertTimers, so a
tracked alert at 100 s upserted with an authoritative 90 s (difference 10,
no state transition metadata exists for alerts) is overwritten to 90 s. -/
theorem alertTimers_overwritten_within_tolerance :
    (displayAlertsTimers [("alert-0", SimpleTimerData.mk 100 90000)]
        [some 90000] 0).lookup "alert-0" = some (SimpleTimerData.mk 90 90000) ∧
    (((100 : Int) - 90).natAbs ≤ 120) ∧ (90 : Nat) ≠ 100 := by
  refine ⟨rfl, by decide, by decide⟩

/-- C2 (amended): the tolerance rule holds for cycle timers only: when the
metadata signals no state transition and the authoritative value is within
120 seconds of the tracked one, the tracked map is left unchanged, and the
entry is overwritten with the authoritative data exactly when a transition
is signalled or the difference exceeds 120 seconds; alert (and fissure)
timers are instead cleared and rebuilt from the authoritative data on
every refresh, ignoring the previously tracked values. -/
theorem cycleTimerUpsert_tolerance (cycleTimers : List (String × TimerData))
    (name state : String) (isDay : Bool) (secs : Nat) (t : TimerData)
    (h : cycleTimers.lookup name = some t) :
    (t.state = state → t.isDay = isDay →
        ((t.seconds : Int) - (secs : Int)).natAbs ≤ 120 →
        cycleTimerUpsert cycleTimers name secs state isDay = cycleTimers) ∧
    ((t.state ≠ state ∨ t.isDay ≠ isDay ∨
        120 < ((t.seconds : Int) - (secs : Int)).natAbs) →
        (cycleTimerUpsert cycleTimers name secs state isDay).lookup name =
          some (TimerData.mk secs state isDay)) ∧
    (∀ (prev : List (String × SimpleTimerData)) (alerts : List (Option Nat))
        (now : Nat),
        displayAlertsTimers prev alerts now = displayAlertsTimers [] alerts now) := by
  refine ⟨?_, ?_, ?_⟩
  · intro hs hd htol
    unfold cycleTimerUpsert
    rw [h]
    have hsu : shouldUpdateTimer (some t) secs state isDay = false := by
      unfold shouldUpdateTimer
      simp [hs, hd]
      omega
    simp [hsu]
  · intro hcase
    unfold cycleTimerUpsert
    have : shouldUpdateTimer (cycleTimers.lookup name) secs state isDay = true := by
      rw [h]
      unfold shouldUpdateTimer
      rcases hcase with h1 | h2 | h3
      · simp [h1]
      · simp [h2]
      · simp
        omega
    rw [this]
    simp [lookup_mapSet_self]
  · intro prev alerts now
    rfl

/-- Closed instance of the amended C2 theorem: a tracked Earth cycle at
3000 s with no state change and an authoritative 2900 s (difference 100)
keeps its locally ticked value. -/
theorem cycleTimerUpsert_tolerance_witness :
    cycleTimerUpsert [("Earth", TimerData.mk 3000 "day" true)] "Earth" 2900
        "day" true = [("Earth", TimerData.mk 3000 "day" true)] :=
  (cycleTimerUpsert_tolerance [("Earth", TimerData.mk 3000 "day" true)]
      "Earth" "day" true 2900 (TimerData.mk 3000 "day" true) (by decide)).1
    rfl rfl (by decide)

/-- C3: under updateTimers ticks with no intervening upsert, every tracked
entry of each of the three timer Maps counts down by exactly one per tick
while positive and then stays at 0: after n ticks its seconds field equals
the truncated subtraction seconds - n, with all other fields unchanged. -/
theorem updateTimers_countdown (st : AppTimerState) (k : String) (n : Nat) :
    (∀ t : TimerData, st.cycleTimers.lookup k = some t →
        (updateTimers^[n] st).cycleTimers.lookup k =
          some { t with seconds := t.seconds - n }) ∧
    (∀ t : SimpleTimerData, st.alertTimers.lookup k = some t →
        (updateTimers^[n] st).alertTimers.lookup k =
          some { t with seconds := t.seconds - n }) ∧
    (∀ t : SimpleTimerData, st.fissureTimers.lookup k = some t →
        (updateTimers^[n] st).fissureTimers.lookup k =
          some { t with seconds := t.seconds - n }) := by
  induction n generalizing st with
  | zero =>
      refine ⟨?_, ?_, ?_⟩ <;> intro t ht <;> simpa using ht
  | succ n ih =>
      have hmaps := updateTimers_maps st
      refine ⟨?_, ?_, ?_⟩ <;> intro t ht
      · have h1 : (updateTimers st).cycleTimers.lookup k =
            some (tickTimerData t) := by
          rw [hmaps.1, lookup_map_value, ht]
          rfl
        rw [Function.iterate_succ_apply]
        have := (ih (updateTimers st)).1 (tickTimerData t) h1
        rw [this, tickTimerData_eq]
        have : t.seconds - 1 - n = t.seconds - (n + 1) := by omega
        simp [this]
      · have h1 : (updateTimers st).alertTimers.lookup k =
            some (tickSimpleTimerData t) := by
          rw [hmaps.2.1, lookup_map_value, ht]
          rfl
        rw [Function.iterate_succ_apply]
        have := (ih (updateTimers st)).2.1 (tickSimpleTimerData t) h1
        rw [this, tickSimpleTimerData_eq]
        have : t.seconds - 1 - n = t.seconds - (n + 1) := by omega
        simp [this]
      · have h1 : (updateTimers st).fissureTimers.lookup k =
            some (tickSimpleTimerData t) := by
          rw [hmaps.2.2, lookup_map_value, ht]
          rfl
        rw [Function.iterate_succ_apply]
        have := (ih (updateTimers st)).2.2 (tickSimpleTimerData t) h1
        rw [this, tickSimpleTimerData_eq]
        have : t.seconds - 1 - n = t.seconds - (n + 1) := by omega
        simp [this]

/-- Closed instance of the C3 theorem: an Earth cycle timer at 2 s reaches
0 after three ticks and stays there, with its metadata untouched. -/
theorem updateTimers_countdown_witness :
    (updateTimers^[3]
        (AppTimerState.mk [("Earth", TimerData.mk 2 "day" true)] [] [] false
          [])).cycleTimers.lookup "Earth" = some (TimerData.mk 0 "day" true) :=
  (updateTimers_countdown
      (AppTimerState.mk [("Earth", TimerData.mk 2 "day" true)] [] [] false [])
      "Earth" 3).1 (TimerData.mk 2 "day" true) (by decide)

/-- C5: when a tick leaves the set of expired timers non-empty and no
corrective refresh is pending, updateTimers schedules exactly one
corrective refresh with the fixed 15000 ms delay and raises the
pendingRefresh flag; and as long as pendingRefresh is raised, a tick never
schedules another refresh, whatever the timers look like. -/
theorem updateTimers_debounced_refresh (st : AppTimerState)
    (h₀ : st.pendingRefresh = false)
    (h₁ : expiredTimersNonempty (tickAllTimers st) = true) :
    (updateTimers st).scheduled = st.scheduled ++ [15000] ∧
    (updateTimers st).pendingRefresh = true ∧
    (∀ st₂ : AppTimerState, st₂.pendingRefresh = true →
        (updateTimers st₂).scheduled = st₂.scheduled ∧
        (updateTimers st₂).pendingRefresh = true) := by
  refine ⟨?_, ?_, ?_⟩
  · simp only [updateTimers]
    rw [h₁]
    simp [tickAllTimers, h₀]
  · simp only [updateTimers]
    rw [h₁]
    simp [tickAllTimers, h₀]
  · intro st₂ h₂
    have hcond :
        (expiredTimersNonempty (tickAllTimers st₂) &&
          !(tickAllTimers st₂).pendingRefresh) = false := by
      simp [tickAllTimers, h₂]
    constructor
    · simp only [updateTimers]
      rw [hcond]
      simp [tickAllTimers]
    · simp only [updateTimers]
      rw [hcond]
      simp [tickAllTimers, h₂]

/-- Closed instance of the C5 theorem: one tick of an app holding a single
1-second Earth cycle timer and no pending refresh schedules a single
15000 ms corrective refresh and raises pendingRefresh. -/
theorem updateTimers_debounced_refresh_witness :
    (updateTimers
        (AppTimerState.mk [("Earth", TimerData.mk 1 "day" true)] [] [] false
          [])).scheduled = [15000] ∧
    (updateTimers
        (AppTimerState.mk [("Earth", TimerData.mk 1 "day" true)] [] [] false
          [])).pendingRefresh = true :=
  ⟨(updateTimers_debounced_refresh
        (AppTimerState.mk [("Earth", TimerData.mk 1 "day" true)] [] [] false [])
        (by decide) (by decide)).1,
   (updateTimers_debounced_refresh
        (AppTimerState.mk [("Earth", TimerData.mk 1 "day" true)] [] [] false [])
        (by decide) (by decide)).2.1⟩

/-- C4 counterexample: the refresh check inspects only this.cycleTimers.
With no cycle timers, a tracked alert timer actively counting down at
5000 s, and a refresh recorded one minute ago, the code refreshes although
the claim (quantifying over all tracked timers) says refresh is not due. -/
theorem refresh_check_ignores_alert_timers :
    shouldRefresh [] (some 1000000) 1060000 = true ∧
    c4ClaimDue
        (AppTimerState.mk [] [("alert-0", SimpleTimerData.mk 5000 6000000)] []
          false [])
        (some 1000000) 1060000 = false := by
  constructor
  · decide
  · decide

/-- C4 (amended): the once-per-minute check triggers a refresh exactly when
no refresh has ever occurred, or more than 120000 ms have elapsed since
the last one, or none of the currently tracked cycle timers (alert and
fissure timers are not consulted) has remainingSeconds strictly between 0
and 7200. -/
theorem shouldRefresh_iff (cycleTimers : List (String × TimerData))
    (lastRefresh : Option Nat) (now : Nat) :
    shouldRefresh cycleTimers lastRefresh now = true ↔
      (lastRefresh = none ∨
       (∃ t₀, lastRefresh = some t₀ ∧ 120000 < (now : Int) - (t₀ : Int)) ∨
       ¬ ∃ p ∈ cycleTimers, 0 < (p : String × TimerData).2.seconds ∧
          p.2.seconds < 7200) := by
  unfold shouldRefresh hasActiveTimers
  cases lastRefresh with
  | none => simp
  | some t₀ =>
      simp [List.any_eq_true]
      tauto

/-- Closed instance of the amended C4 theorem: with no prior refresh the
check always triggers. -/
theorem shouldRefresh_iff_witness :
    shouldRefresh [("Earth", TimerData.mk 100 "day" true)] none 0 = true :=
  (shouldRefresh_iff [("Earth", TimerData.mk 100 "day" true)] none 0).mpr
    (Or.inl rfl)

/-! ## Order ranking and filtering

Mirrors WarframeMarketApp.displayOrders: drop orders whose user is not
ingame or online, apply the current order-type filter, sort each side with
the sortWithPriority comparator (status priority first, then price), and
display the first 10 of each side.  Array.prototype.sort with a comparator
is modelled by the stable List.mergeSort over the induced ordering
comparator value at most 0. -/

/-- User record of a market order as read by displayOrders. -/
structure OrderUser where
  ingame_name : String
  status : String
  deriving Repr, DecidableEq

/-- Market order as read by displayOrders. -/
structure Order where
  user : OrderUser
  order_type : String
  platinum : Nat
  quantity : Nat
  deriving Repr, DecidableEq

/-- Embedding of the statusPriority table inside sortWithPriority,
including the JavaScript default 0 for unknown statuses. -/
def statusPriority (status : String) : Int :=
  if status = "ingame" then 3
  else if status = "online" then 2
  else if status = "offline" then 1
  else 0

/-- Embedding of the sortWithPriority comparator in displayOrders: compare
status priorities first (higher first), and only at equal priority compare
platinum (ascending or descending as requested). -/
def sortWithPriority (a b : Order) (isAscending : Bool) : Int :=
  let aPriority := statusPriority a.user.status
  let bPriority := statusPriority b.user.status
  if aPriority ≠ bPriority then bPriority - aPriority
  else if isAscending then (a.platinum : Int) - (b.platinum : Int)
  else (b.platinum : Int) - (a.platinum : Int)

/-- Ordering induced by the comparator: a sorts no later than b when the
comparator value is at most 0. -/
def orderLE (isAscending : Bool) (a b : Order) : Bool :=
  decide (sortWithPriority a b isAscending ≤ 0)

/-- Embedding of the online-users filter in displayOrders. -/
def onlineOrders (orders : List Order) : List Order :=
  orders.filter (fun o => o.user.status == "ingame" || o.user.status == "online")

/-- Embedding of the order-type filter in displayOrders: buy keeps buy
orders, sell keeps sell orders, anything else (the all filter) keeps
both. -/
def applyOrderFilter (orderFilter : String) (orders : List Order) : List Order :=
  if orderFilter == "buy" then orders.filter (fun o => o.order_type == "buy")
  else if orderFilter == "sell" then orders.filter (fun o => o.order_type == "sell")
  else orders

/-- Buy side of displayOrders before truncation: buy orders among the
filtered online orders, sorted with descending price at equal priority. -/
def buyOrdersSorted (orderFilter : String) (orders : List Order) : List Order :=
  ((applyOrderFilter orderFilter (onlineOrders orders)).filter
      (fun o => o.order_type == "buy")).mergeSort (orderLE false)

/-- Sell side of displayOrders before truncation: sell orders among the
filtered online orders, sorted with ascending price at equal priority. -/
def sellOrdersSorted (orderFilter : String) (orders : List Order) : List Order :=
  ((applyOrderFilter orderFilter (onlineOrders orders)).filter
      (fun o => o.order_type == "sell")).mergeSort (orderLE true)

/-- Displayed buy orders: the first 10 of the sorted buy side. -/
def displayedBuyOrders (orderFilter : String) (orders : List Order) : List Order :=
  (buyOrdersSorted orderFilter orders).take 10

/-- Displayed sell orders: the first 10 of the sorted sell side. -/
def displayedSellOrders (orderFilter : String) (orders : List Order) : List Order :=
  (sellOrdersSorted orderFilter orders).take 10

theorem orderLE_total (asc : Bool) (a b : Order) :
    (orderLE asc a b || orderLE asc b a) = true := by
  simp only [orderLE, sortWithPriority, Bool.or_eq_true, decide_eq_true_eq]
  generalize statusPriority a.user.status = pa
  generalize statusPriority b.user.status = pb
  cases asc <;> split_ifs <;> omega

theorem orderLE_trans (asc : Bool) (a b c : Order) :
    orderLE asc a b = true → orderLE asc b c = true → orderLE asc a c = true := by
  simp only [orderLE, sortWithPriority, decide_eq_true_eq]
  generalize statusPriority a.user.status = pa
  generalize statusPriority b.user.status = pb
  generalize statusPriority c.user.status = pc
  intro h₁ h₂
  cases asc <;> split_ifs at h₁ h₂ ⊢ <;> omega

theorem orderLE_false_spec (a b : Order) (h : orderLE false a b = true) :
    statusPriority b.user.status ≤ statusPriority a.user.status ∧
    (statusPriority a.user.status = statusPriority b.user.status →
      b.platinum ≤ a.platinum) := by
  simp only [orderLE, sortWithPriority, decide_eq_true_eq] at h
  constructor
  · split_ifs at h <;> omega
  · intro hq
    rw [if_neg (by simpa using hq)] at h
    simp at h
    omega

theorem orderLE_true_spec (a b : Order) (h : orderLE true a b = true) :
    statusPriority b.user.status ≤ statusPriority a.user.status ∧
    (statusPriority a.user.status = statusPriority b.user.status →
      a.platinum ≤ b.platinum) := by
  simp only [orderLE, sortWithPriority, decide_eq_true_eq] at h
  constructor
  · split_ifs at h <;> omega
  · intro hq
    rw [if_neg (by simpa using hq)] at h
    simp at h
    omega

/-- Sell order of an online user at 50 platinum, from the C7 scenario. -/
def c7OnlineOrder : Order :=
  Order.mk (OrderUser.mk "online-user" "online") "sell" 50 1

/-- Sell order of an ingame user at 60 platinum, from the C7 scenario. -/
def c7IngameOrder : Order :=
  Order.mk (OrderUser.mk "ingame-user" "ingame") "sell" 60 1

/-- C7: for the two-order scenario the ranked sell list places the ingame
user at 60 platinum before the online user at 50 platinum: status priority
outweighs price. -/
theorem ranked_sell_priority_beats_price :
    displayedSellOrders "all" [c7OnlineOrder, c7IngameOrder] =
      [c7IngameOrder, c7OnlineOrder] := by
  simp [displayedSellOrders, sellOrdersSorted, applyOrderFilter, onlineOrders,
    c7OnlineOrder, c7IngameOrder, orderLE, sortWithPriority, statusPriority,
    List.mergeSort, List.splitInTwo, List.splitAt, List.splitAt.go, List.merge]

/-- C6 counterexample: the ranked sell list is not primarily ordered by
ascending platinum: with an online seller at 50 and an ingame seller at
60, the 60-platinum order comes first. -/
theorem sell_ranking_not_price_primary :
    ¬ (displayedSellOrders "all" [c7OnlineOrder, c7IngameOrder]).Pairwise
        (fun a b => a.platinum ≤ b.platinum) := by
  have h : displayedSellOrders "all" [c7OnlineOrder, c7IngameOrder] =
      [c7IngameOrder, c7OnlineOrder] := by
    simp [displayedSellOrders, sellOrdersSorted, applyOrderFilter, onlineOrders,
      c7OnlineOrder, c7IngameOrder, orderLE, sortWithPriority, statusPriority,
      List.mergeSort, List.splitInTwo, List.splitAt, List.splitAt.go, List.merge]
  rw [h]
  simp [c7IngameOrder, c7OnlineOrder]

/-- C6 (amended): within each ranked side the primary key is user status
priority (ingame above online above offline), and only orders of equal
priority are ordered by price: descending platinum on the buy side,
ascending platinum on the sell side. -/
theorem displayedOrders_priority_then_price (orderFilter : String)
    (orders : List Order) :
    (displayedBuyOrders orderFilter orders).Pairwise
      (fun a b => statusPriority b.user.status ≤ statusPriority a.user.status ∧
        (statusPriority a.user.status = statusPriority b.user.status →
          b.platinum ≤ a.platinum)) ∧
    (displayedSellOrders orderFilter orders).Pairwise
      (fun a b => statusPriority b.user.status ≤ statusPriority a.user.status ∧
        (statusPriority a.user.status = statusPriority b.user.status →
          a.platinum ≤ b.platinum)) := by
  constructor
  · have hs : (buyOrdersSorted orderFilter orders).Pairwise
        (fun a b => orderLE false a b = true) :=
      List.sorted_mergeSort (orderLE_trans false) (orderLE_total false) _
    exact ((hs.sublist (List.take_sublist 10 _)).imp
      (fun hab => orderLE_false_spec _ _ hab))
  · have hs : (sellOrdersSorted orderFilter orders).Pairwise
        (fun a b => orderLE true a b = true) :=
      List.sorted_mergeSort (orderLE_trans true) (orderLE_total true) _
    exact ((hs.sublist (List.take_sublist 10 _)).imp
      (fun hab => orderLE_true_spec _ _ hab))

theorem applyOrderFilter_buy (l : List Order) :
    applyOrderFilter "buy" l = l.filter (fun o => o.order_type == "buy") := rfl

theorem applyOrderFilter_sell (l : List Order) :
    applyOrderFilter "sell" l = l.filter (fun o => o.order_type == "sell") := rfl

theorem applyOrderFilter_all (l : List Order) :
    applyOrderFilter "all" l = l := rfl

theorem applyOrderFilter_subset (f : String) (l : List Order) :
    applyOrderFilter f l ⊆ l := by
  unfold applyOrderFilter
  split_ifs
  · exact (List.filter_sublist _).subset
  · exact (List.filter_sublist _).subset
  · exact fun a ha => ha

theorem mem_buyOrdersSorted {o : Order} {f : String} {orders : List Order}
    (h : o ∈ buyOrdersSorted f orders) :
    o ∈ orders ∧ o.user.status ≠ "offline" ∧ o.order_type = "buy" := by
  unfold buyOrdersSorted at h
  rw [List.mem_mergeSort, List.mem_filter] at h
  obtain ⟨h1, h2⟩ := h
  have h3 : o ∈ onlineOrders orders := applyOrderFilter_subset f _ h1
  rw [onlineOrders, List.mem_filter] at h3
  obtain ⟨h4, h5⟩ := h3
  refine ⟨h4, ?_, by simpa using h2⟩
  intro hoff
  rw [hoff] at h5
  exact absurd h5 (by decide)

theorem mem_sellOrdersSorted {o : Order} {f : String} {orders : List Order}
    (h : o ∈ sellOrdersSorted f orders) :
    o ∈ orders ∧ o.user.status ≠ "offline" ∧ o.order_type = "sell" := by
  unfold sellOrdersSorted at h
  rw [List.mem_mergeSort, List.mem_filter] at h
  obtain ⟨h1, h2⟩ := h
  have h3 : o ∈ onlineOrders orders := applyOrderFilter_subset f _ h1
  rw [onlineOrders, List.mem_filter] at h3
  obtain ⟨h4, h5⟩ := h3
  refine ⟨h4, ?_, by simpa using h2⟩
  intro hoff
  rw [hoff] at h5
  exact absurd h5 (by decide)

/-- C8: the ranking pipeline keeps only orders from the input whose user is
not offline, applies the requested type filter to each displayed side,
truncates each displayed side to at most 10 entries, and (under the all
filter) retains every non-offline order of the matching type in the
corresponding pre-truncation side. -/
theorem displayOrders_filtering (orderFilter : String) (orders : List Order)
    (h : ∀ o ∈ orders, o.user.status = "ingame" ∨ o.user.status = "online" ∨
        o.user.status = "offline") :
    (∀ o ∈ displayedBuyOrders orderFilter orders,
        o ∈ orders ∧ o.user.status ≠ "offline" ∧ o.order_type = "buy") ∧
    (∀ o ∈ displayedSellOrders orderFilter orders,
        o ∈ orders ∧ o.user.status ≠ "offline" ∧ o.order_type = "sell") ∧
    (displayedBuyOrders orderFilter orders).length ≤ 10 ∧
    (displayedSellOrders orderFilter orders).length ≤ 10 ∧
    (orderFilter = "buy" → displayedSellOrders orderFilter orders = []) ∧
    (orderFilter = "sell" → displayedBuyOrders orderFilter orders = []) ∧
    (orderFilter = "all" → ∀ o ∈ orders, o.user.status ≠ "offline" →
        (o.order_type = "buy" → o ∈ buyOrdersSorted orderFilter orders) ∧
        (o.order_type = "sell" → o ∈ sellOrdersSorted orderFilter orders)) := by
  refine ⟨?_, ?_, ?_, ?_, ?_, ?_, ?_⟩
  · intro o ho
    exact mem_buyOrdersSorted (List.take_subset 10 _ ho)
  · intro o ho
    exact mem_sellOrdersSorted (List.take_subset 10 _ ho)
  · exact List.length_take_le 10 _
  · exact List.length_take_le 10 _
  · intro hf
    subst hf
    unfold displayedSellOrders sellOrdersSorted
    have hnil : (applyOrderFilter "buy" (onlineOrders orders)).filter
        (fun o => o.order_type == "sell") = [] := by
      rw [List.filter_eq_nil_iff]
      intro a ha
      rw [applyOrderFilter_buy, List.mem_filter] at ha
      obtain ⟨-, hb⟩ := ha
      have hb2 : a.order_type = "buy" := by simpa using hb
      rw [hb2]
      decide
    rw [hnil]
    simp
  · intro hf
    subst hf
    unfold displayedBuyOrders buyOrdersSorted
    have hnil : (applyOrderFilter "sell" (onlineOrders orders)).filter
        (fun o => o.order_type == "buy") = [] := by
      rw [List.filter_eq_nil_iff]
      intro a ha
      rw [applyOrderFilter_sell, List.mem_filter] at ha
      obtain ⟨-, hb⟩ := ha
      have hb2 : a.order_type = "sell" := by simpa using hb
      rw [hb2]
      decide
    rw [hnil]
    simp
  · intro hf o ho hoff
    subst hf
    have honline : (o.user.status == "ingame" || o.user.status == "online") = true := by
      rcases h o ho with h1 | h1 | h1
      · rw [h1]
        decide
      · rw [h1]
        decide
      · exact absurd h1 hoff
    constructor
    · intro hb
      unfold buyOrdersSorted
      rw [List.mem_mergeSort, applyOrderFilter_all, List.mem_filter]
      refine ⟨?_, by simp [hb]⟩
      rw [onlineOrders, List.mem_filter]
      exact ⟨ho, honline⟩
    · intro hs
      unfold sellOrdersSorted
      rw [List.mem_mergeSort, applyOrderFilter_all, List.mem_filter]
      refine ⟨?_, by simp [hs]⟩
      rw [onlineOrders, List.mem_filter]
      exact ⟨ho, honline⟩

/-- Closed instance of the C8 theorem: with the all filter and two sell
orders from online and ingame users, the displayed buy side holds at most
10 entries. -/
theorem displayOrders_filtering_witness :
    (displayedBuyOrders "all" [c7OnlineOrder, c7IngameOrder]).length ≤ 10 :=
  (displayOrders_filtering "all" [c7OnlineOrder, c7IngameOrder]
      (by decide)).2.2.1

/-! ## Item search

Mirrors WarframeMarketAPI.searchItems: fetch the item catalog (through the
cache), filter items whose lowercased item_name or url_name contains the
lowercased query, keep the first 10, and return the empty list whenever
anything in the try block throws.  JavaScript strings are modelled as
lists of characters to embed toLowerCase and String.prototype.includes. -/

/-- Catalog item as read by searchItems. -/
structure WfItem where
  item_name : List Char
  url_name : List Char
  deriving Repr, DecidableEq

/-- Payload of the item-catalog response: response.payload.items. -/
structure ItemsPayload where
  items : List WfItem
  deriving Repr, DecidableEq

/-- Embedding of String.prototype.toLowerCase. -/
def toLowerChars (s : List Char) : List Char := s.map Char.toLower

/-- Check whether the needle occurs at the head of the haystack. -/
def matchesHere : List Char → List Char → Bool
  | [], _ => true
  | _ :: _, [] => false
  | c :: cs, d :: ds => c == d && matchesHere cs ds

/-- Embedding of String.prototype.includes: the needle occurs at some
position of the haystack. -/
def containsSub : List Char → List Char → Bool
  | [], needle => matchesHere needle []
  | c :: rest, needle => matchesHere needle (c :: rest) || containsSub rest needle

/-- Embedding of WarframeMarketAPI.searchItems.  The getItems call is
represented by its outcome; the catch block maps every failure to the
empty list. -/
def searchItems (fetched : Except String ItemsPayload) (query : List Char) :
    List WfItem :=
  match fetched with
  | Except.error _ => []
  | Except.ok response =>
      (response.items.filter (fun item =>
          containsSub (toLowerChars item.item_name) (toLowerChars query) ||
          containsSub (toLowerChars item.url_name) (toLowerChars query))).take 10

/-- C10: searchItems is a total function that returns the empty list on any
catalog fetch failure, returns at most 10 items, and returns only items of
the fetched catalog. -/
theorem searchItems_safe (fetched : Except String ItemsPayload)
    (query : List Char) :
    (∀ e : String, searchItems (Except.error e) query = []) ∧
    (searchItems fetched query).length ≤ 10 ∧
    (∀ item ∈ searchItems fetched query, ∀ response,
        fetched = Except.ok response → item ∈ response.items) := by
  refine ⟨fun e => rfl, ?_, ?_⟩
  · cases fetched with
    | error e => simp [searchItems]
    | ok r =>
        exact List.length_take_le 10
          (r.items.filter (fun item =>
            containsSub (toLowerChars item.item_name) (toLowerChars query) ||
            containsSub (toLowerChars item.url_name) (toLowerChars query)))
  · intro item hmem response heq
    subst heq
    simp only [searchItems] at hmem
    have h1 := List.take_subset 10 _ hmem
    exact (List.mem_filter.mp h1).1

/-- Closed instance of the C10 theorem: an item matching its own name is
reported as coming from the catalog. -/
theorem searchItems_safe_witness :
    WfItem.mk [Char.ofNat 97] [Char.ofNat 97] ∈
      (ItemsPayload.mk [WfItem.mk [Char.ofNat 97] [Char.ofNat 97]]).items :=
  (searchItems_safe
      (Except.ok (ItemsPayload.mk [WfItem.mk [Char.ofNat 97] [Char.ofNat 97]]))
      [Char.ofNat 97]).2.2
    (WfItem.mk [Char.ofNat 97] [Char.ofNat 97]) (by decide)
    (ItemsPayload.mk [WfItem.mk [Char.ofNat 97] [Char.ofNat 97]]) rfl

/-- Closed instance of the amended C6 theorem: the ranked sell list of the
two-order example is ordered by status priority with ascending price among
equal priorities. -/
theorem displayedOrders_priority_then_price_witness :
    (displayedSellOrders "all" [c7OnlineOrder, c7IngameOrder]).Pairwise
      (fun a b => statusPriority b.user.status ≤ statusPriority a.user.status ∧
        (statusPriority a.user.status = statusPriority b.user.status →
          a.platinum ≤ b.platinum)) :=
  (displayedOrders_priority_then_price "all" [c7OnlineOrder, c7IngameOrder]).2
